import Mathlib

/-!
Verification development for the YouTube transcript summarizer app
(`src/app.py`).  The program is a single-file Streamlit script; we embed it
shallowly: each Python function becomes a pure Lean function, Streamlit
session state becomes an explicit `SessionState` record, the MongoDB
collections become lists carried in an `AppState` record, and each external
service (YouTube transcript API, Gemini, translator, bcrypt, reportlab
rendering) is an abstract function supplied in an `Env` record.  UI calls
(`st.error`, `st.success`, `print`, `st.download_button`) are recorded in an
`Effects` record.  Python text is modeled as Lean `String` (a list of
characters); `str.split()` / `str.split(sep)` / `" ".join` / the `in`
operator are modeled by the structural functions below, with whitespace
taken to be space, tab, newline and carriage return.
-/

namespace YTApp

/-! ## Python string primitives -/

/-- Whitespace characters recognized by the model of Python `str.split()`. -/
def isWs (c : Char) : Bool :=
  c == ' ' || c == '\t' || c == '\n' || c == '\r'

/-- Accumulator loop for `str.split()`: `acc` holds the current (reversed)
in-progress word. -/
def pysplitAux : List Char → List Char → List (List Char)
  | [], acc => if acc = [] then [] else [acc.reverse]
  | c :: rest, acc =>
    if isWs c then
      if acc = [] then pysplitAux rest [] else acc.reverse :: pysplitAux rest []
    else
      pysplitAux rest (c :: acc)

/-- Python `s.split()`: split on runs of whitespace, dropping empty pieces. -/
def pysplit (s : List Char) : List (List Char) := pysplitAux s []

/-- Python `" ".join(words)` at the character-list level. -/
def joinSpaceL : List (List Char) → List Char
  | [] => []
  | [w] => w
  | w :: ws => w ++ ' ' :: joinSpaceL ws

/-- The ellipsis marker `'...'` appended by the Summary clamp. -/
def ellipsis : List Char := ['.', '.', '.']

/-- Python `sep.join(parts)` on strings (used by `" ".join` in
`fetch_transcript`). -/
def pyJoin (sep : String) : List String → String
  | [] => ""
  | [a] => a
  | a :: b :: rest => a ++ sep ++ pyJoin sep (b :: rest)

/-- Substring scan underlying the Python `in` operator. -/
def pyInL (needle : List Char) : List Char → Bool
  | [] => needle.isEmpty
  | c :: rest => needle.isPrefixOf (c :: rest) || pyInL needle rest

/-- Python `needle in hay` (substring containment). -/
def pyIn (needle hay : String) : Bool := pyInL needle.toList hay.toList

/-- Loop for Python `s.split(sep)` with a non-empty separator: scans left to
right; on a match it emits the accumulated piece and skips the remaining
`sep.length - 1` separator characters via the `skip` counter. -/
def pySplitOnAux (sep : List Char) : List Char → Nat → List Char → List (List Char)
  | [], _, acc => [acc.reverse]
  | _ :: rest, skip + 1, acc => pySplitOnAux sep rest skip acc
  | c :: rest, 0, acc =>
    if sep.isPrefixOf (c :: rest) then
      acc.reverse :: pySplitOnAux sep rest (sep.length - 1) []
    else
      pySplitOnAux sep rest 0 (c :: acc)

/-- Python `s.split(sep)` for a string separator. -/
def pySplitOn (sep s : String) : List String :=
  if sep = "" then [s]
  else (pySplitOnAux sep.toList s.toList 0 []).map fun l => String.mk l

/-- Python `lst[i]` under a guard that guarantees the index exists. -/
def pyGet (l : List String) (i : Nat) : String := l.getD i ""

/-- Python truthiness of an optional string: `None` and `""` are falsy. -/
def pyTruthy : Option String → Bool
  | none => false
  | some s => decide (s ≠ "")

/-! ## Content Generator (`generate_content`, app.py lines 57-89)

The Gemini backend `model.generate_content(prompt + transcript)` is abstract:
`gemini : String → Except String String`, where `.error e` models a raised
exception with message `e` and `.ok r` models a response with `r = response.text`. -/

/-- Result of `generate_content`: the returned value (`None` on a caught
exception), whether the generative backend was invoked, and the `st.error`
messages shown. -/
structure GenResult where
  result : Option String
  backendCalled : Bool
  errors : List String
  deriving Repr, DecidableEq

/-- Python `str(d)` for the optional word count interpolated into the
Summary f-string. -/
def pyShowOptNat : Option Nat → String
  | none => "None"
  | some n => toString n

/-- The Summary prompt template (app.py lines 61-64). -/
def summary_prompt (desired_word_count : Option Nat) : String :=
  "\n            You are a YouTube video summarizer. Take the transcript provided and summarize it to highlight the important points in approximately "
    ++ pyShowOptNat desired_word_count
    ++ " words.\n            Ensure the summary is concise, focused, and within the word limit of "
    ++ pyShowOptNat desired_word_count
    ++ " words. Provide the summary in English.\n            "

/-- The Notes prompt template (app.py lines 66-69). -/
def notes_prompt : String :=
  "\n            You are a YouTube video note-taker. Take the transcript provided and generate important notes that summarize the key points in a bulleted format.\n            Ensure the notes are concise and focused on the most important aspects. Provide the notes in English.\n            "

/-- The Flashcards prompt template (app.py lines 71-74). -/
def flashcards_prompt : String :=
  "\n            You are a YouTube video flashcard generator. Take the transcript provided and generate a list of key concepts and questions for studying in flashcard format.\n            Ensure the flashcards are clear, relevant, and easy to understand. Provide the flashcards in English.\n            "

/-- The Summary post-processing clamp (app.py lines 81-84): when
`desired_word_count` is truthy and the word count exceeds it, keep the first
`desired_word_count` words, space-joined, and append `'...'`. -/
def generate_summary_post (content : String) (desired_word_count : Option Nat) : String :=
  match desired_word_count with
  | none => content
  | some n =>
    if n = 0 then content
    else
      let words := pysplit content.toList
      if n < words.length then String.mk (joinSpaceL (words.take n) ++ ellipsis)
      else content

/-- `generate_content(content_type, transcript_text, desired_word_count)`
(app.py lines 57-89). -/
def generate_content (gemini : String → Except String String)
    (content_type transcript_text : String) (desired_word_count : Option Nat) :
    GenResult :=
  let promptFor : Option String :=
    if content_type = "Summary" then some (summary_prompt desired_word_count)
    else if content_type = "Notes" then some notes_prompt
    else if content_type = "Flashcards" then some flashcards_prompt
    else none
  match promptFor with
  | none => ⟨some "Invalid content type selected.", false, []⟩
  | some prompt =>
    match gemini (prompt ++ transcript_text) with
    | .error e => ⟨none, true, ["Failed to generate content: " ++ e]⟩
    | .ok response =>
      let content :=
        if content_type = "Summary" then generate_summary_post response desired_word_count
        else response
      ⟨some content, true, []⟩

/-! ## Word-splitting lemmas for the Summary clamp -/

/-- A produced word: non-empty and whitespace-free. -/
def goodWord (w : List Char) : Prop := w ≠ [] ∧ ∀ c ∈ w, isWs c = false

theorem pysplitAux_append_word (w : List Char) (hw : ∀ c ∈ w, isWs c = false) :
    ∀ (t acc : List Char), pysplitAux (w ++ t) acc = pysplitAux t (w.reverse ++ acc) := by
  induction w with
  | nil => intro t acc; simp
  | cons c w' ih =>
    intro t acc
    have hc : isWs c = false := hw c (by simp)
    have hw' : ∀ x ∈ w', isWs x = false := fun x hx => hw x (by simp [hx])
    simp only [List.cons_append, pysplitAux, hc, Bool.false_eq_true, if_false, List.append_eq]
    rw [ih hw' t (c :: acc)]
    simp

theorem pysplit_all_nonws (s : List Char) (hne : s ≠ []) (h : ∀ c ∈ s, isWs c = false) :
    pysplit s = [s] := by
  have := pysplitAux_append_word s h [] []
  simp only [List.append_nil] at this
  unfold pysplit
  rw [this]
  simp [pysplitAux, hne]

theorem pysplit_word_space (w s : List Char) (hw : goodWord w) :
    pysplit (w ++ ' ' :: s) = w :: pysplit s := by
  obtain ⟨hne, hall⟩ := hw
  unfold pysplit
  rw [pysplitAux_append_word w hall (' ' :: s) []]
  simp only [List.append_nil, pysplitAux]
  have : isWs ' ' = true := by decide
  simp [this, hne]

theorem pysplitAux_good (s : List Char) :
    ∀ (acc : List Char), (∀ c ∈ acc, isWs c = false) →
      ∀ w ∈ pysplitAux s acc, goodWord w := by
  induction s with
  | nil =>
    intro acc hacc w hw
    simp only [pysplitAux] at hw
    by_cases h : acc = []
    · simp [h] at hw
    · simp only [h, if_false] at hw
      simp only [List.mem_singleton] at hw
      subst hw
      refine ⟨by simpa using h, ?_⟩
      intro c hc
      exact hacc c (List.mem_reverse.mp hc)
  | cons c rest ih =>
    intro acc hacc w hw
    simp only [pysplitAux] at hw
    by_cases hc : isWs c
    · simp only [hc, if_true] at hw
      by_cases h : acc = []
      · simp only [h, if_true] at hw
        exact ih [] (by simp) w hw
      · simp only [h, if_false, List.mem_cons] at hw
        rcases hw with hw | hw
        · subst hw
          refine ⟨by simpa using h, ?_⟩
          intro x hx
          exact hacc x (List.mem_reverse.mp hx)
        · exact ih [] (by simp) w hw
    · simp only [hc, if_false] at hw
      refine ih (c :: acc) ?_ w hw
      intro x hx
      rcases List.mem_cons.mp hx with hx | hx
      · subst hx; simpa using hc
      · exact hacc x hx

theorem pysplit_good (s : List Char) : ∀ w ∈ pysplit s, goodWord w :=
  pysplitAux_good s [] (by simp)

theorem ellipsis_nonws : ∀ c ∈ ellipsis, isWs c = false := by decide

theorem pysplit_join_ellipsis (l : List (List Char)) (hl : ∀ w ∈ l, goodWord w)
    (hne : l ≠ []) : (pysplit (joinSpaceL l ++ ellipsis)).length = l.length := by
  induction l with
  | nil => cases hne rfl
  | cons w l' ih =>
    cases l' with
    | nil =>
      have hw := hl w (by simp)
      have hgood : ∀ c ∈ w ++ ellipsis, isWs c = false := by
        intro c hc
        rcases List.mem_append.mp hc with hc | hc
        · exact hw.2 c hc
        · exact ellipsis_nonws c hc
      have hne' : w ++ ellipsis ≠ [] := by
        simp [ellipsis]
      simp only [joinSpaceL]
      rw [pysplit_all_nonws (w ++ ellipsis) hne' hgood]
      simp
    | cons w2 l'' =>
      have hassoc : joinSpaceL (w :: w2 :: l'') ++ ellipsis
          = w ++ ' ' :: (joinSpaceL (w2 :: l'') ++ ellipsis) := by
        simp [joinSpaceL, List.append_assoc]
      rw [hassoc, pysplit_word_space _ _ (hl w (by simp))]
      have := ih (fun x hx => hl x (by simp [hx])) (by simp)
      simp [this]

/-- Claim C1: for every Summary generation with target word count `N > 0`
(the app's slider only produces 50–500) and a successful backend response,
the returned text has at most `N` words; and whenever the backend output has
more than `N` words, the returned text is exactly the first `N` words of
the backend output space-joined with the ellipsis marker `'...'` appended,
so it ends with the ellipsis marker. -/
theorem summary_clamp_correct (gemini : String → Except String String)
    (transcript : String) (N : Nat) (hN : 0 < N) (resp : String)
    (hresp : gemini (summary_prompt (some N) ++ transcript) = .ok resp) :
    (generate_content gemini "Summary" transcript (some N)).result
        = some (generate_summary_post resp (some N)) ∧
    (pysplit (generate_summary_post resp (some N)).toList).length ≤ N ∧
    (N < (pysplit resp.toList).length →
      (generate_summary_post resp (some N)).toList
          = joinSpaceL ((pysplit resp.toList).take N) ++ ellipsis ∧
      ellipsis <:+ (generate_summary_post resp (some N)).toList) := by
  have hNz : N ≠ 0 := Nat.pos_iff_ne_zero.mp hN
  have hpost : generate_summary_post resp (some N)
      = (if N < (pysplit resp.toList).length
         then String.mk (joinSpaceL ((pysplit resp.toList).take N) ++ ellipsis)
         else resp) := by
    simp [generate_summary_post, hNz]
  refine ⟨by simp [generate_content, hresp], ?_, ?_⟩
  · by_cases h : N < (pysplit resp.toList).length
    · rw [hpost, if_pos h]
      have hgood : ∀ w ∈ (pysplit resp.toList).take N, goodWord w := fun w hw =>
        pysplit_good resp.toList w (List.mem_of_mem_take hw)
      have hlen : ((pysplit resp.toList).take N).length = N := by
        rw [List.length_take]; omega
      have hne : (pysplit resp.toList).take N ≠ [] := by
        intro hc
        rw [hc] at hlen
        simp at hlen
        omega
      have hcount := pysplit_join_ellipsis _ hgood hne
      have htl : (String.mk (joinSpaceL ((pysplit resp.toList).take N) ++ ellipsis)).toList
          = joinSpaceL ((pysplit resp.toList).take N) ++ ellipsis := rfl
      rw [htl, hcount, hlen]
    · rw [hpost, if_neg h]
      omega
  · intro h
    rw [hpost, if_pos h]
    exact ⟨rfl, List.suffix_append _ _⟩

/-- Witness for C1: backend output `"a b c d e"` (5 words), target 3;
the clamp keeps 3 words and appends the ellipsis. -/
theorem summary_clamp_correct_witness :
    (generate_content (fun _ => Except.ok "a b c d e") "Summary" "" (some 3)).result
        = some (generate_summary_post "a b c d e" (some 3)) ∧
    (pysplit (generate_summary_post "a b c d e" (some 3)).toList).length ≤ 3 ∧
    (3 < (pysplit ("a b c d e" : String).toList).length →
      (generate_summary_post "a b c d e" (some 3)).toList
          = joinSpaceL ((pysplit ("a b c d e" : String).toList).take 3) ++ ellipsis ∧
      ellipsis <:+ (generate_summary_post "a b c d e" (some 3)).toList) :=
  summary_clamp_correct (fun _ => Except.ok "a b c d e") "" 3 (by decide) "a b c d e" rfl

/-! ## Data model: collections, session state, effects, environment -/

/-- A document of the `users` collection: email and bcrypt-hashed password. -/
structure UserDoc where
  email : String
  password : String
  deriving Repr, DecidableEq

/-- A document of the `generated_content` collection (the payload built by
`save_to_mongodb`, app.py lines 106-113). -/
structure ContentDoc where
  email : String
  video_id : String
  content_type : String
  content : String
  language : Option String
  timestamp : Nat
  deriving Repr, DecidableEq

/-- Streamlit `st.session_state` fields used by the script. -/
structure SessionState where
  logged_in : Bool
  user_email : Option String
  is_admin_logged_in : Bool
  generated_content : Option String
  translated_content : Option String
  pdf_generated : Bool
  deriving Repr, DecidableEq

/-- Observable effects of one script run: `st.error` messages, `st.success`
messages, server-console `print` output, whether the transcript API was
called, whether the Gemini backend was called, whether the PDF download
button was offered, whether the run aborted with an uncaught exception, and
how many documents were inserted into the `generated_content` collection. -/
structure Effects where
  errors : List String := []
  successes : List String := []
  consoleLog : List String := []
  fetchAttempted : Bool := false
  geminiCalled : Bool := false
  downloadOffered : Bool := false
  crashed : Bool := false
  mongoWrites : Nat := 0
  deriving Repr, DecidableEq

/-- Sequential composition of the effects of two script phases. -/
def Effects.merge (a b : Effects) : Effects where
  errors := a.errors ++ b.errors
  successes := a.successes ++ b.successes
  consoleLog := a.consoleLog ++ b.consoleLog
  fetchAttempted := a.fetchAttempted || b.fetchAttempted
  geminiCalled := a.geminiCalled || b.geminiCalled
  downloadOffered := a.downloadOffered || b.downloadOffered
  crashed := a.crashed || b.crashed
  mongoWrites := a.mongoWrites + b.mongoWrites

/-- Outcome of the YouTube transcript API for a given video id and language:
a segment list, or one of the exceptions caught by `fetch_transcript`. -/
inductive FetchOutcome where
  | ok (segments : List String)
  | noTranscriptFound
  | videoUnavailable
  | otherError (msg : String)
  deriving Repr, DecidableEq

/-- The whole process state: the two MongoDB collections plus the session. -/
structure AppState where
  users : List UserDoc
  contents : List ContentDoc
  session : SessionState
  deriving Repr, DecidableEq

/-- External services and configuration: bcrypt check/hash, the transcript
API, the Gemini backend, the translator, the reportlab rendering step (which
may raise), and the admin credentials from the environment. -/
structure Env where
  checkpw : String → String → Bool
  hashpw : String → String
  yt : String → String → FetchOutcome
  gemini : String → Except String String
  translator : String → String → Except String String
  render : String → String → Except String Unit
  adminEmail : String
  adminPassword : String

/-! ## Transcript Fetcher (`fetch_transcript`, app.py lines 43-54) -/

/-- `fetch_transcript(video_id, language)`: joins the segment texts with
spaces on success; on a caught exception shows an error and returns `None`. -/
def fetch_transcript (yt : String → String → FetchOutcome)
    (video_id language : String) : Option String × List String :=
  match yt video_id language with
  | .ok segments => (some (pyJoin " " segments), [])
  | .noTranscriptFound => (none, ["Transcript not available for this video."])
  | .videoUnavailable => (none, ["The video is unavailable. Please try another link."])
  | .otherError e => (none, ["An unexpected error occurred: " ++ e])

/-! ## Translator (`translate_content`, app.py lines 92-101) -/

/-- `translate_content(content, target_language)`: single backend round trip;
a caught exception yields an error message and `None`. -/
def translate_content (translator : String → String → Except String String)
    (content target_language : String) : Option String × List String :=
  match translator content target_language with
  | .ok t => (some t, [])
  | .error e => (none, ["Failed to translate content: " ++ e])

/-! ## Account Store writes (`save_to_mongodb`, app.py lines 104-117) -/

/-- `save_to_mongodb(email, video_id, content_type, content, language)`:
inserts one document into the `generated_content` collection. -/
def save_to_mongodb (contents : List ContentDoc)
    (email video_id content_type content : String) (language : Option String)
    (timestamp : Nat) : List ContentDoc × Effects :=
  (contents ++ [⟨email, video_id, content_type, content, language, timestamp⟩],
   { successes := ["Content saved permanently to MongoDB."], mongoWrites := 1 })

/-- MongoDB `users_collection.find_one(dict email)`: first document of the
collection whose email matches. -/
def find_one (users : List UserDoc) (email : String) : Option UserDoc :=
  users.find? fun u => decide (u.email = email)

/-! ## Login and signup (`login_page` / `signup_page`, app.py lines 120-150) -/

/-- `login_page()` submit action: look the email up, verify the password
with bcrypt; any mismatch yields the same generic error and no state
change. -/
def login_page (env : Env) (clicked : Bool) (email password : String)
    (users : List UserDoc) (st : SessionState) : SessionState × Effects :=
  if clicked then
    match find_one users email with
    | some user =>
      if env.checkpw password user.password then
        ({ st with logged_in := true, user_email := some email },
         { successes := ["Login successful!"] })
      else (st, { errors := ["Invalid email or password."] })
    | none => (st, { errors := ["Invalid email or password."] })
  else (st, {})

/-- `signup_page()` submit action: reject an existing email; otherwise hash
the password, insert the user, set then immediately reset the logged-in
flags (the source's explicit redirect back to the login page). -/
def signup_page (env : Env) (clicked : Bool) (email password : String)
    (users : List UserDoc) (st : SessionState) :
    List UserDoc × SessionState × Effects :=
  if clicked then
    match find_one users email with
    | some _ => (users, st, { errors := ["User already exists."] })
    | none =>
      let hashed_password := env.hashpw password
      let users1 := users ++ [⟨email, hashed_password⟩]
      let st1 := { st with logged_in := true, user_email := some email }
      let st2 := { st1 with logged_in := false, user_email := none }
      (users1, st2,
       { successes := ["Registration successful! You can now log in."] })
  else (users, st, {})

/-! ## Exporter (`generate_pdf`, app.py lines 153-177) -/

/-- `generate_pdf(content, content_type)`: renders to a fixed path; a caught
exception is printed to the server console (not the UI) and `None` is
returned. -/
def generate_pdf (render : String → String → Except String Unit)
    (content content_type : String) : Option String × List String :=
  match render content content_type with
  | .ok _ => (some "/tmp/generated_content_reportlab.pdf", [])
  | .error e => (none, ["Error generating PDF: " ++ e])

/-! ## Admin panel (`admin_panel`, app.py lines 180-203) -/

/-- `admin_panel()`: optional logout plus read-only listings of the two
collections. -/
def admin_panel (logoutClicked : Bool) (s : AppState) : AppState × Effects :=
  if logoutClicked then
    ({ s with session := { s.session with is_admin_logged_in := false } },
     { successes := ["Admin has been logged out."] })
  else (s, {})

/-! ## Session Orchestrator (`main_app`, app.py lines 206-264) -/

/-- Widget values of one `main_app` run.  In Streamlit at most one button
reads `True` per rerun; both flags are carried so that each claim states
which action the run performs. -/
structure MainInputs where
  youtube_link : String
  content_type : String
  desired_word_count : Nat
  generateClicked : Bool
  translateClicked : Bool
  translation_language : String
  deriving Repr, DecidableEq

/-- The video-id parse of app.py lines 211-216: a `v=` query parameter or a
path segment after `youtu.be/`; any other non-empty link is a parse
failure. -/
def parse_video_id (youtube_link : String) : Option String :=
  if youtube_link = "" then none
  else if pyIn "v=" youtube_link then
    some (pyGet (pySplitOn "&" (pyGet (pySplitOn "v=" youtube_link) 1)) 0)
  else if pyIn "youtu.be/" youtube_link then
    some (pyGet (pySplitOn "youtu.be/" youtube_link) 1)
  else none

/-- First half of `main_app` (app.py lines 209-239): parse the link, fetch
the transcript when a video id is present, and on the Generate button store
the generated content and reset the translated content and the PDF flag. -/
def gen_phase (env : Env) (inp : MainInputs) (st : SessionState) :
    SessionState × Effects :=
  let video_id := parse_video_id inp.youtube_link
  let parseErrs : List String :=
    if inp.youtube_link ≠ "" ∧ video_id = none
    then ["Please enter a valid YouTube link."] else []
  if pyTruthy video_id then
    let fr := fetch_transcript env.yt (video_id.getD "") "en"
    if pyTruthy fr.1 then
      if inp.generateClicked then
        let g :=
          if inp.content_type = "Summary" then
            generate_content env.gemini inp.content_type (fr.1.getD "")
              (some inp.desired_word_count)
          else
            generate_content env.gemini inp.content_type (fr.1.getD "") none
        ({ st with generated_content := g.result, translated_content := none,
                   pdf_generated := false },
         { errors := parseErrs ++ fr.2 ++ g.errors, fetchAttempted := true,
           geminiCalled := g.backendCalled })
      else (st, { errors := parseErrs ++ fr.2, fetchAttempted := true })
    else (st, { errors := parseErrs ++ fr.2, fetchAttempted := true })
  else (st, { errors := parseErrs })

/-- Second half of `main_app` (app.py lines 241-264): when generated content
is present, render the PDF and offer the download; `open(None)` after a
failed render raises an uncaught `TypeError`, aborting the run with the
session state kept; otherwise the Translate button may translate the current
generated content. -/
def display_phase (env : Env) (inp : MainInputs) (st : SessionState) :
    SessionState × Effects :=
  if pyTruthy st.generated_content then
    let content := st.generated_content.getD ""
    let pdf := generate_pdf env.render content inp.content_type
    match pdf.1 with
    | none => (st, { consoleLog := pdf.2, crashed := true })
    | some _ =>
      if inp.translateClicked then
        let tr := translate_content env.translator content inp.translation_language
        ({ st with translated_content := tr.1 },
         { errors := tr.2, consoleLog := pdf.2, downloadOffered := true })
      else (st, { consoleLog := pdf.2, downloadOffered := true })
  else (st, {})

/-- `main_app()`: the generation phase followed by the display phase. -/
def main_app (env : Env) (inp : MainInputs) (st : SessionState) :
    SessionState × Effects :=
  let r1 := gen_phase env inp st
  let r2 := display_phase env inp r1.1
  (r2.1, r1.2.merge r2.2)

/-! ## Entry point (app.py lines 267-294) -/

/-- Widget values of one whole script run. -/
structure RunInputs where
  option : String
  email : String
  password : String
  loginClicked : Bool
  signupClicked : Bool
  adminEmailInput : String
  adminPasswordInput : String
  adminLoginClicked : Bool
  adminLogoutClicked : Bool
  main : MainInputs
  deriving Repr, DecidableEq

/-- The admin-login sub-mode of the entry point (app.py lines 284-294). -/
def admin_login (env : Env) (clicked : Bool) (email password : String)
    (st : SessionState) : SessionState × Effects :=
  if clicked then
    if email = env.adminEmail ∧ password = env.adminPassword then
      ({ st with is_admin_logged_in := true },
       { successes := ["Admin login successful!"] })
    else (st, { errors := ["Invalid admin credentials."] })
  else (st, {})

/-- One full Streamlit script run: dispatch on the session flags to
`main_app`, `admin_panel`, or one of the unauthenticated sub-modes. -/
def script_run (env : Env) (inp : RunInputs) (s : AppState) :
    AppState × Effects :=
  if s.session.logged_in then
    let r := main_app env inp.main s.session
    ({ s with session := r.1 }, r.2)
  else if s.session.is_admin_logged_in then
    admin_panel inp.adminLogoutClicked s
  else if inp.option = "Login" then
    let r := login_page env inp.loginClicked inp.email inp.password s.users s.session
    ({ s with session := r.1 }, r.2)
  else if inp.option = "Sign Up" then
    let r := signup_page env inp.signupClicked inp.email inp.password s.users s.session
    ({ s with users := r.1, session := r.2.1 }, r.2.2)
  else if inp.option = "Admin Login" then
    let r := admin_login env inp.adminLoginClicked inp.adminEmailInput
      inp.adminPasswordInput s.session
    ({ s with session := r.1 }, r.2)
  else (s, {})

/-! ## Helper lemmas about phase effects -/

theorem gen_phase_mongoWrites (env : Env) (inp : MainInputs) (st : SessionState) :
    (gen_phase env inp st).2.mongoWrites = 0 := by
  unfold gen_phase
  simp only []
  repeat (any_goals split)
  all_goals rfl

theorem gen_phase_downloadOffered (env : Env) (inp : MainInputs) (st : SessionState) :
    (gen_phase env inp st).2.downloadOffered = false := by
  unfold gen_phase
  simp only []
  repeat (any_goals split)
  all_goals rfl

theorem display_phase_mongoWrites (env : Env) (inp : MainInputs) (st : SessionState) :
    (display_phase env inp st).2.mongoWrites = 0 := by
  unfold display_phase
  simp only []
  repeat (any_goals split)
  all_goals rfl

theorem display_phase_fetchAttempted (env : Env) (inp : MainInputs) (st : SessionState) :
    (display_phase env inp st).2.fetchAttempted = false := by
  unfold display_phase
  simp only []
  repeat (any_goals split)
  all_goals rfl

theorem main_app_mongoWrites (env : Env) (inp : MainInputs) (st : SessionState) :
    (main_app env inp st).2.mongoWrites = 0 := by
  show ((gen_phase env inp st).2.merge
    (display_phase env inp (gen_phase env inp st).1).2).mongoWrites = 0
  simp [Effects.merge, gen_phase_mongoWrites, display_phase_mongoWrites]

theorem login_page_mongoWrites (env : Env) (b : Bool) (email pw : String)
    (users : List UserDoc) (st : SessionState) :
    (login_page env b email pw users st).2.mongoWrites = 0 := by
  unfold login_page
  repeat (any_goals split)
  all_goals rfl

theorem signup_page_mongoWrites (env : Env) (b : Bool) (email pw : String)
    (users : List UserDoc) (st : SessionState) :
    (signup_page env b email pw users st).2.2.mongoWrites = 0 := by
  unfold signup_page
  simp only []
  repeat (any_goals split)
  all_goals rfl

theorem admin_login_mongoWrites (env : Env) (b : Bool) (email pw : String)
    (st : SessionState) :
    (admin_login env b email pw st).2.mongoWrites = 0 := by
  unfold admin_login
  repeat (any_goals split)
  all_goals rfl

theorem admin_panel_mongoWrites (b : Bool) (s : AppState) :
    (admin_panel b s).2.mongoWrites = 0 := by
  unfold admin_panel
  split
  all_goals rfl

/-- The Translate button not being pressed leaves the session untouched by
the display phase. -/
theorem display_phase_noop (env : Env) (inp : MainInputs) (st : SessionState)
    (h : inp.translateClicked = false) : (display_phase env inp st).1 = st := by
  unfold display_phase
  simp only []
  repeat (any_goals split)
  all_goals simp_all

/-! ## Concrete fixtures used by witnesses and counterexamples -/

/-- A concrete environment: failing bcrypt check, two-segment transcript,
five-word Gemini output, failing PDF rendering. -/
def env0 : Env where
  checkpw := fun _ _ => false
  hashpw := fun p => "hashed:" ++ p
  yt := fun _ _ => .ok ["hello", "world"]
  gemini := fun _ => .ok "a b c d e"
  translator := fun _ _ => .ok "translated"
  render := fun _ _ => .error "io failure"
  adminEmail := "admin@example.com"
  adminPassword := "secret"

/-- Fresh session state. -/
def st0 : SessionState := ⟨false, none, false, none, none, false⟩

/-- A logged-in session that already holds generated and translated content. -/
def stExp : SessionState := ⟨true, some "a@b.com", false, some "x", some "old", true⟩

/-- Main-screen inputs with no link and no button pressed. -/
def inp0 : MainInputs := ⟨"", "Notes", 250, false, false, "Hindi"⟩

/-- Main-screen inputs: a short link and the Generate button pressed. -/
def inpGen : MainInputs := ⟨"https://youtu.be/abc123", "Notes", 250, true, false, "Hindi"⟩

/-- Main-screen inputs: a malformed link with neither URL marker. -/
def inpBad : MainInputs := ⟨"https://example.com/watch", "Summary", 250, false, false, "Hindi"⟩

/-! ## Claim theorems -/

/-- Claim C2: in every reachable interaction flow (login, signup, admin
panel, admin login, and the whole user session including generation,
translation and export), `save_to_mongodb` is never invoked: one whole
script run never changes the `generated_content` collection and performs
zero Mongo insertions — although `save_to_mongodb` itself, had it been
called, would have appended a record. -/
theorem save_to_mongodb_never_invoked (env : Env) (inp : RunInputs) (s : AppState)
    (email vid ctype body : String) (lang : Option String) (ts : Nat) :
    (script_run env inp s).1.contents = s.contents ∧
    (script_run env inp s).2.mongoWrites = 0 ∧
    (save_to_mongodb s.contents email vid ctype body lang ts).1.length
      = s.contents.length + 1 := by
  refine ⟨?_, ?_, by simp [save_to_mongodb]⟩
  · unfold script_run admin_panel
    simp only []
    repeat (any_goals split)
    all_goals rfl
  · unfold script_run
    simp only []
    repeat (any_goals split)
    all_goals
      simp [main_app_mongoWrites, login_page_mongoWrites, signup_page_mongoWrites,
        admin_login_mongoWrites, admin_panel_mongoWrites]

/-- Claim C10: for every `generate_content` call whose content type is none
of Summary, Notes, Flashcards, the invalid-type message is returned
immediately and the generative backend is never invoked. -/
theorem invalid_kind_no_backend (gemini : String → Except String String)
    (transcript : String) (dwc : Option Nat) (content_type : String)
    (h1 : content_type ≠ "Summary") (h2 : content_type ≠ "Notes")
    (h3 : content_type ≠ "Flashcards") :
    generate_content gemini content_type transcript dwc
      = ⟨some "Invalid content type selected.", false, []⟩ := by
  unfold generate_content
  simp [h1, h2, h3]

/-- Witness for C10 at the unrecognized kind `"Poem"`. -/
theorem invalid_kind_no_backend_witness :
    generate_content env0.gemini "Poem" "t" none
      = ⟨some "Invalid content type selected.", false, []⟩ :=
  invalid_kind_no_backend env0.gemini "t" none "Poem"
    (by decide) (by decide) (by decide)

/-- `find_one` over an appended singleton when the original store has no
match. -/
theorem find_one_append_of_none (users : List UserDoc) (x : UserDoc)
    (email : String) (h : find_one users email = none) :
    find_one (users ++ [x]) email = find_one [x] email := by
  induction users with
  | nil => simp
  | cons u t ih =>
    unfold find_one at h ⊢
    cases hu : decide (u.email = email) with
    | true => simp [List.find?, hu] at h
    | false =>
      simp only [List.find?, hu, List.cons_append] at h ⊢
      exact ih h

/-- No match by `find_one` means no user with that email at all. -/
theorem filter_eq_nil_of_find_one_none (users : List UserDoc) (email : String)
    (h : find_one users email = none) :
    users.filter (fun u => decide (u.email = email)) = [] := by
  induction users with
  | nil => simp
  | cons u t ih =>
    unfold find_one at h
    cases hu : decide (u.email = email) with
    | true => simp [List.find?, hu] at h
    | false =>
      simp only [List.find?, hu] at h
      simp only [List.filter, hu]
      exact ih h

/-- Claim C4: if signup succeeds for an email once, a second signup with
the same email reports `User already exists.`, leaves the store unchanged,
and the store then contains exactly one user with that email. -/
theorem signup_duplicate_rejected (env : Env) (users : List UserDoc)
    (email pw1 pw2 : String) (st1 st2 : SessionState)
    (h : find_one users email = none) :
    "User already exists."
      ∈ (signup_page env true email pw2
          (signup_page env true email pw1 users st1).1 st2).2.2.errors ∧
    (signup_page env true email pw2
        (signup_page env true email pw1 users st1).1 st2).1
      = (signup_page env true email pw1 users st1).1 ∧
    ((signup_page env true email pw2
        (signup_page env true email pw1 users st1).1 st2).1.filter
          (fun u => decide (u.email = email))).length = 1 := by
  have h1 : (signup_page env true email pw1 users st1).1
      = users ++ [⟨email, env.hashpw pw1⟩] := by
    unfold signup_page
    simp [h]
  have h2 : find_one (users ++ [⟨email, env.hashpw pw1⟩]) email
      = some ⟨email, env.hashpw pw1⟩ := by
    rw [find_one_append_of_none users _ email h]
    simp [find_one, List.find?]
  rw [h1]
  unfold signup_page
  rw [h2]
  simp [List.filter_append, filter_eq_nil_of_find_one_none users email h, List.filter]

/-- Witness for C4: empty store, email `a@b.com` registered once, then a
second registration with the same email. -/
theorem signup_duplicate_rejected_witness :
    "User already exists."
      ∈ (signup_page env0 true "a@b.com" "p2"
          (signup_page env0 true "a@b.com" "p1" [] st0).1 st0).2.2.errors ∧
    (signup_page env0 true "a@b.com" "p2"
        (signup_page env0 true "a@b.com" "p1" [] st0).1 st0).1
      = (signup_page env0 true "a@b.com" "p1" [] st0).1 ∧
    ((signup_page env0 true "a@b.com" "p2"
        (signup_page env0 true "a@b.com" "p1" [] st0).1 st0).1.filter
          (fun u => decide (u.email = "a@b.com"))).length = 1 :=
  signup_duplicate_rejected env0 [] "a@b.com" "p1" "p2" st0 st0 rfl

/-- Claim C5: a failing login attempt yields the identical result — no
session change and the same generic error — whether the email is absent
from the store or the password does not match the stored hash: the two
failure causes are indistinguishable from the returned result. -/
theorem login_failure_indistinguishable (env : Env) (users1 users2 : List UserDoc)
    (e1 p1 e2 p2 : String) (st : SessionState) (u : UserDoc)
    (habsent : find_one users1 e1 = none)
    (hfound : find_one users2 e2 = some u)
    (hwrong : env.checkpw p2 u.password = false) :
    login_page env true e1 p1 users1 st = login_page env true e2 p2 users2 st ∧
    login_page env true e1 p1 users1 st
      = (st, { errors := ["Invalid email or password."] }) := by
  unfold login_page
  rw [habsent, hfound]
  simp [hwrong]

/-- Witness for C5: unknown email `absent@x.com` against an empty store
versus wrong password for the stored user `a@b.com`. -/
theorem login_failure_indistinguishable_witness :
    login_page env0 true "absent@x.com" "p1" [] st0
      = login_page env0 true "a@b.com" "p2" [⟨"a@b.com", "HASH"⟩] st0 ∧
    login_page env0 true "absent@x.com" "p1" [] st0
      = (st0, { errors := ["Invalid email or password."] }) :=
  login_failure_indistinguishable env0 [] [⟨"a@b.com", "HASH"⟩]
    "absent@x.com" "p1" "a@b.com" "p2" st0 ⟨"a@b.com", "HASH"⟩ rfl rfl rfl

/-- Claim C9: a successful signup returns the user to the login sub-mode:
afterwards the logged-in flag is false and the session email is cleared, so
registration never enters the user session. -/
theorem signup_no_autologin (env : Env) (users : List UserDoc) (email pw : String)
    (st : SessionState) (h : find_one users email = none) :
    (signup_page env true email pw users st).2.1.logged_in = false ∧
    (signup_page env true email pw users st).2.1.user_email = none ∧
    "Registration successful! You can now log in."
      ∈ (signup_page env true email pw users st).2.2.successes := by
  unfold signup_page
  simp [h]

/-- Witness for C9: successful signup of `a@b.com` on an empty store. -/
theorem signup_no_autologin_witness :
    (signup_page env0 true "a@b.com" "p1" [] st0).2.1.logged_in = false ∧
    (signup_page env0 true "a@b.com" "p1" [] st0).2.1.user_email = none ∧
    "Registration successful! You can now log in."
      ∈ (signup_page env0 true "a@b.com" "p1" [] st0).2.2.successes :=
  signup_no_autologin env0 [] "a@b.com" "p1" st0 rfl

/-- Claim C6: every generation action — link parsed to a truthy video id,
transcript fetched successfully, Generate pressed (a Streamlit rerun
performs one button action, so Translate is not pressed in the same run) —
clears any previously held translated content and resets the PDF flag to
false, regardless of those fields' previous values. -/
theorem generation_invalidates (env : Env) (inp : MainInputs) (st : SessionState)
    (hvid : pyTruthy (parse_video_id inp.youtube_link) = true)
    (htr : pyTruthy (fetch_transcript env.yt
      ((parse_video_id inp.youtube_link).getD "") "en").1 = true)
    (hgen : inp.generateClicked = true)
    (hnot : inp.translateClicked = false) :
    (main_app env inp st).1.translated_content = none ∧
    (main_app env inp st).1.pdf_generated = false := by
  have hg : (gen_phase env inp st).1.translated_content = none ∧
      (gen_phase env inp st).1.pdf_generated = false := by
    unfold gen_phase
    simp only []
    simp [hvid, htr, hgen]
  have hd := display_phase_noop env inp (gen_phase env inp st).1 hnot
  have hm : (main_app env inp st).1 = (gen_phase env inp st).1 := by
    show (display_phase env inp (gen_phase env inp st).1).1 = _
    exact hd
  rw [hm]
  exact hg

/-- A session holding stale generated, translated and export state. -/
def stC6 : SessionState := ⟨true, some "a@b.com", false, some "old gen", some "old tr", true⟩

/-- Witness for C6: generation via the short link `https://youtu.be/abc123`
over a state that still holds translated content and an export flag. -/
theorem generation_invalidates_witness :
    (main_app env0 inpGen stC6).1.translated_content = none ∧
    (main_app env0 inpGen stC6).1.pdf_generated = false :=
  generation_invalidates env0 inpGen stC6 (by decide) (by decide) rfl rfl

/-- The generation phase when the link parses to no video id. -/
theorem gen_phase_no_video (env : Env) (inp : MainInputs) (st : SessionState)
    (hp : parse_video_id inp.youtube_link = none) :
    gen_phase env inp st = (st,
      { errors := if inp.youtube_link ≠ "" then ["Please enter a valid YouTube link."]
                  else [] }) := by
  unfold gen_phase
  simp [hp, pyTruthy]

/-- Claim C8: the link parser recognizes exactly the two URL shapes (`v=`
query parameter, or a path segment after `youtu.be/`); for any link of any
other shape the parse fails, the transcript API is never called during the
run, and a non-empty such link makes the failure be reported to the user. -/
theorem link_parser_two_shapes (env : Env) (inp : MainInputs) (st : SessionState)
    (h1 : pyIn "v=" inp.youtube_link = false)
    (h2 : pyIn "youtu.be/" inp.youtube_link = false) :
    parse_video_id inp.youtube_link = none ∧
    (main_app env inp st).2.fetchAttempted = false ∧
    (inp.youtube_link ≠ "" →
      "Please enter a valid YouTube link." ∈ (main_app env inp st).2.errors) := by
  have hp : parse_video_id inp.youtube_link = none := by
    unfold parse_video_id
    simp [h1, h2]
  have hg := gen_phase_no_video env inp st hp
  have hme : (main_app env inp st).2
      = (gen_phase env inp st).2.merge
          (display_phase env inp (gen_phase env inp st).1).2 := rfl
  refine ⟨hp, ?_, ?_⟩
  · rw [hme, hg]
    simp [Effects.merge, display_phase_fetchAttempted]
  · intro hne
    rw [hme, hg]
    simp [Effects.merge, hne]

/-- Witness for C8: the malformed link `https://example.com/watch` (no `v=`,
no short-link marker). -/
theorem link_parser_two_shapes_witness :
    parse_video_id inpBad.youtube_link = none ∧
    (main_app env0 inpBad st0).2.fetchAttempted = false ∧
    (inpBad.youtube_link ≠ "" →
      "Please enter a valid YouTube link." ∈ (main_app env0 inpBad st0).2.errors) :=
  link_parser_two_shapes env0 inpBad st0 (by decide) (by decide)

/-- Counterexample to claim C3: with generated content `"x"` present and a
failing render, the run produces no user-visible error message at all (the
failure is only printed to the server console), and the export step does not
abort cleanly: the subsequent `open(None)` raises an uncaught exception
(`crashed = true`); no download is offered. -/
theorem export_failure_counterexample :
    env0.render "x" inp0.content_type = Except.error "io failure" ∧
    (main_app env0 inp0 stExp).2.errors = [] ∧
    (main_app env0 inp0 stExp).2.crashed = true ∧
    (main_app env0 inp0 stExp).2.downloadOffered = false ∧
    "Error generating PDF: io failure" ∈ (main_app env0 inp0 stExp).2.consoleLog := by
  refine ⟨rfl, rfl, rfl, rfl, ?_⟩
  decide

/-- Claim C3 (amended): when rendering fails, the failure is caught inside
`generate_pdf` and reported only on the server console, not as a
user-visible message; the caller receives no handle and no download is
offered, but the export step aborts by an uncaught exception from
`open(None)` rather than cleanly, leaving the session state exactly as the
generation phase produced it and adding no user-visible message. -/
theorem export_failure_amended (env : Env) (inp : MainInputs) (st : SessionState)
    (e : String)
    (hcontent : pyTruthy (gen_phase env inp st).1.generated_content = true)
    (hrender : env.render ((gen_phase env inp st).1.generated_content.getD "")
      inp.content_type = .error e) :
    (main_app env inp st).2.crashed = true ∧
    (main_app env inp st).2.downloadOffered = false ∧
    ("Error generating PDF: " ++ e) ∈ (main_app env inp st).2.consoleLog ∧
    (main_app env inp st).2.errors = (gen_phase env inp st).2.errors ∧
    (main_app env inp st).1 = (gen_phase env inp st).1 := by
  have hd : display_phase env inp (gen_phase env inp st).1
      = ((gen_phase env inp st).1,
         { consoleLog := ["Error generating PDF: " ++ e], crashed := true }) := by
    unfold display_phase generate_pdf
    simp [hcontent, hrender]
  have hme : main_app env inp st
      = ((display_phase env inp (gen_phase env inp st).1).1,
         (gen_phase env inp st).2.merge
           (display_phase env inp (gen_phase env inp st).1).2) := rfl
  rw [hme, hd]
  simp [Effects.merge, gen_phase_downloadOffered]

/-- Witness for the amended C3 behavior at the concrete failing render. -/
theorem export_failure_amended_witness :
    (main_app env0 inp0 stExp).2.crashed = true ∧
    (main_app env0 inp0 stExp).2.downloadOffered = false ∧
    ("Error generating PDF: " ++ "io failure") ∈ (main_app env0 inp0 stExp).2.consoleLog ∧
    (main_app env0 inp0 stExp).2.errors = (gen_phase env0 inp0 stExp).2.errors ∧
    (main_app env0 inp0 stExp).1 = (gen_phase env0 inp0 stExp).1 :=
  export_failure_amended env0 inp0 stExp "io failure" (by decide) rfl

/-- The zero-segment transcript backend used by the C7 counterexample. -/
def yt0 : String → String → FetchOutcome := fun _ _ => .ok []

/-- Counterexample to claim C7: a video whose transcript track is available
(the lookup succeeds) but has no segments — `fetch_transcript` succeeds yet
returns the empty string, which is not a non-empty string. -/
theorem fetch_empty_track_counterexample :
    yt0 "vid0" "en" = FetchOutcome.ok [] ∧
    (fetch_transcript yt0 "vid0" "en").1 = some "" ∧
    ("" : String).length = 0 :=
  ⟨rfl, rfl, rfl⟩

/-- Every joined part is no longer than the join. -/
theorem le_length_pyJoin (sep : String) (segments : List String) (s : String)
    (hs : s ∈ segments) : s.length ≤ (pyJoin sep segments).length := by
  induction segments with
  | nil => simp at hs
  | cons a t ih =>
    cases t with
    | nil =>
      simp only [List.mem_singleton] at hs
      subst hs
      simp [pyJoin]
    | cons b t' =>
      have hlen : (pyJoin sep (a :: b :: t')).length
          = a.length + sep.length + (pyJoin sep (b :: t')).length := by
        simp only [pyJoin, String.length_append]
      rcases List.mem_cons.mp hs with hh | hh
      · subst hh; omega
      · have := ih hh; omega

/-- A non-empty string has positive length. -/
theorem length_pos_of_ne_empty (s : String) (h : s ≠ "") : 0 < s.length := by
  obtain ⟨data⟩ := s
  cases data with
  | nil => exact absurd rfl h
  | cons c cs =>
    have hl : (String.mk (c :: cs)).length = cs.length + 1 := rfl
    omega

/-- Claim C7 (amended): on a successful transcript lookup, fetch returns
exactly the space-joined concatenation of the segment texts in original
order; the result is non-empty whenever at least one segment text is
non-empty (an available track with no segments yields the empty string —
see the counterexample). -/
theorem fetch_space_joined (yt : String → String → FetchOutcome)
    (video_id language : String) (segments : List String)
    (h : yt video_id language = .ok segments) :
    (fetch_transcript yt video_id language).1 = some (pyJoin " " segments) ∧
    ((∃ s ∈ segments, s ≠ "") → pyJoin " " segments ≠ "") := by
  refine ⟨by simp [fetch_transcript, h], ?_⟩
  rintro ⟨s, hs, hne⟩ heq
  have h1 := le_length_pyJoin " " segments s hs
  have h2 := length_pos_of_ne_empty s hne
  rw [heq] at h1
  have h0 : ("" : String).length = 0 := rfl
  rw [h0] at h1
  omega

/-- Witness for the amended C7 at a two-segment transcript. -/
theorem fetch_space_joined_witness :
    (fetch_transcript env0.yt "abc123" "en").1 = some (pyJoin " " ["hello", "world"]) ∧
    ((∃ s ∈ ["hello", "world"], s ≠ "") → pyJoin " " ["hello", "world"] ≠ "") :=
  fetch_space_joined env0.yt "abc123" "en" ["hello", "world"] rfl

end YTApp
